import Mathlib

/-!
Shallow embedding of the rate-limited GraphQL gateway of `tarkov-mcp`
(`src/tarkov_mcp/graphql_client.py`): the `RateLimiter` class (lines 15-40)
and the `TarkovGraphQLClient` lifecycle and query execution
(`__aenter__`/`__aexit__`, `_initialize`, `_cleanup`, `execute_query`,
lines 42-93).

Timestamps and durations are drawn from an arbitrary linearly ordered
commutative ring `α`, abstracting the real-valued clock of `time.time()`
(the code only subtracts, compares, and takes minima of times, and these
are what the claims use).  General theorems are proved for every such `α`;
concrete scenarios are stated over `ℤ` after scaling the claimed durations
to an integral time unit (for instance milliseconds, under which a
`0.1 s` window is the integer `100`), which is an order-preserving
embedding of the claimed real-valued scenario.

`RateLimiter.acquire` is modelled for a caller that runs with the
limiter's `asyncio.Lock` free at entry, which is the situation of every
sequential call.  `asyncio.Lock` is not reentrant, and in the source both
the `await asyncio.sleep(wait_time)` (line 37) and the recursive
`return await self.acquire()` (line 38) are inside the
`async with self._lock:` block opened at line 26; the recursive call
therefore awaits a lock already held by the same task and never resumes.
The model records this as the outcome `blockedForever`, together with the
event trace observed up to that point.

The network call of `execute_query` (the `gql(query)` parse plus
`self._client.execute_async(...)`, lines 87-88) is abstracted by an
injected oracle `net : Except String String`: `.ok r` is the parsed
response, `.error e` is any exception raised inside the `try` block.
-/

namespace TarkovMCP

/-- Events visible in one execution of `RateLimiter.acquire`, in order of
occurrence: acquiring/releasing `self._lock`, the `asyncio.sleep` of line 37
with its duration, the append of the admission timestamp (line 40), and the
`ValueError` raised by `min(self.requests)` on an empty list (line 33). -/
inductive Ev (α : Type) where
  | lockAcquired
  | lockReleased
  | sleep (duration : α)
  | record (t : α)
  | raiseValueError
  deriving DecidableEq

/-- Result of one `RateLimiter.acquire` call, carrying the value of
`self.requests` at the moment the call returns, raises, or blocks (the
pruning assignment of line 29 has always happened by then). -/
inductive AcquireOutcome (α : Type) where
  | admitted (requests : List α)
  | raisedValueError (requests : List α)
  | blockedForever (requests : List α)
  deriving DecidableEq

/-- `RateLimiter.__init__` state (lines 18-22): `max_requests` (a Python
int), `time_window` (seconds, default 60), and the `requests` history. -/
structure RateLimiter (α : Type) where
  max_requests : Int
  time_window : α
  requests : List α
  deriving DecidableEq

namespace RateLimiter

variable {α : Type} [LinearOrderedCommRing α]

/-- Line 29: `self.requests = [t for t in self.requests if now - t < self.time_window]`. -/
def prune (rl : RateLimiter α) (now : α) : List α :=
  rl.requests.filter fun t => decide (now - t < rl.time_window)

/-- One execution of `RateLimiter.acquire` (lines 24-40) by a caller holding
no lock at entry, at wall-clock instant `now`.  Returns the outcome paired
with the event trace.  If the pruned history is full and `wait_time > 0`,
the task sleeps at line 37 while still inside `async with self._lock:` and
then recursively awaits `self.acquire()` at line 38; that inner call blocks
on the non-reentrant lock held by the same task, so the outer call never
returns and the lock is never released (`blockedForever`, trace ends at the
sleep).  `min(self.requests)` at line 33 raises `ValueError` when the pruned
list is empty, which the `async with` translates into releasing the lock and
propagating the exception. -/
def acquire (rl : RateLimiter α) (now : α) : AcquireOutcome α × List (Ev α) :=
  if ((rl.prune now).length : Int) ≥ rl.max_requests then
    match rl.prune now with
    | [] =>
        (.raisedValueError [], [.lockAcquired, .raiseValueError, .lockReleased])
    | t :: ts =>
        if 0 < rl.time_window - (now - ts.foldl min t) then
          (.blockedForever (t :: ts),
           [.lockAcquired, .sleep (rl.time_window - (now - ts.foldl min t))])
        else
          (.admitted ((t :: ts) ++ [now]),
           [.lockAcquired, .record now, .lockReleased])
  else
    (.admitted (rl.prune now ++ [now]),
     [.lockAcquired, .record now, .lockReleased])

/-- A sequence of sequential `acquire` calls on one limiter with the given
`max_requests` and `time_window`, starting from the given history, at the
given call instants.  Returns the final history, or `none` when some call
raises or blocks forever (in which case no later call ever runs). -/
def runCalls (m : Int) (w : α) : List α → List α → Option (List α)
  | requests, [] => some requests
  | requests, now :: laterCalls =>
    match (acquire ⟨m, w, requests⟩ now).1 with
    | .admitted h => runCalls m w h laterCalls
    | _ => none

end RateLimiter

/-- Whether a trace contains a sleep event. -/
def hasSleep {α : Type} (tr : List (Ev α)) : Bool :=
  tr.any fun e => match e with | .sleep _ => true | _ => false

/-- Whether some sleep event of the trace happens while the lock is held,
starting from `held` nested lock acquisitions. -/
def sleepsWhileLocked {α : Type} : Nat → List (Ev α) → Bool
  | _, [] => false
  | held, .lockAcquired :: es => sleepsWhileLocked (held + 1) es
  | held, .lockReleased :: es => sleepsWhileLocked (held - 1) es
  | held, .sleep _ :: es => decide (0 < held) || sleepsWhileLocked held es
  | held, _ :: es => sleepsWhileLocked held es

/-- `config.MAX_REQUESTS_PER_MINUTE` default (`src/tarkov_mcp/config.py`). -/
def MAX_REQUESTS_PER_MINUTE : Int := 60

/-- Observable state of a `TarkovGraphQLClient` (lines 42-48): the owned
rate limiter, whether `self._client` is set (it is `None` after `__init__`
and a truthy `Client` object after `_initialize`), whether `self._session`
is set (it is `None` after `__init__` and is never assigned anywhere else in
the class), and how many times `self._session.close()` has been awaited. -/
structure TarkovGraphQLClient (α : Type) where
  rate_limiter : RateLimiter α
  hasClient : Bool
  hasSession : Bool
  sessionCloseCalls : Nat
  deriving DecidableEq

namespace TarkovGraphQLClient

variable {α : Type} [LinearOrderedCommRing α]

/-- `TarkovGraphQLClient.__init__` (lines 45-48): a fresh limiter with
`config.MAX_REQUESTS_PER_MINUTE` and the default 60-second window, and
`_client = None`, `_session = None`. -/
def init : TarkovGraphQLClient α :=
  { rate_limiter := { max_requests := MAX_REQUESTS_PER_MINUTE, time_window := 60, requests := [] }
    hasClient := false
    hasSession := false
    sessionCloseCalls := 0 }

/-- `TarkovGraphQLClient._initialize` (lines 59-72): builds the transport
and assigns `self._client`.  Note that it never assigns `self._session`. -/
def initClient (s : TarkovGraphQLClient α) : TarkovGraphQLClient α :=
  { s with hasClient := true }

/-- `TarkovGraphQLClient._cleanup` (lines 74-77):
`if self._session: await self._session.close()`. -/
def cleanup (s : TarkovGraphQLClient α) : TarkovGraphQLClient α :=
  if s.hasSession then { s with sessionCloseCalls := s.sessionCloseCalls + 1 } else s

/-- `__aenter__` (lines 50-53): awaits `_initialize` and returns `self`. -/
def aenter (s : TarkovGraphQLClient α) : TarkovGraphQLClient α := s.initClient

/-- `__aexit__` (lines 55-57): awaits `_cleanup`.  The `async with`
statement runs it on every exit path, normal or exceptional. -/
def aexit (s : TarkovGraphQLClient α) : TarkovGraphQLClient α := s.cleanup

/-- The message of the `RuntimeError` raised at line 82. -/
def notInitializedMsg : String := "Client not initialized. Use async context manager."

/-- Result of one `execute_query` call. -/
inductive ExecOutcome where
  | raisedRuntimeError (msg : String)
  | raisedValueErrorFromLimiter
  | blockedInLimiter
  | success (result : String)
  | raisedQueryError (e : String) (logged : String)
  deriving DecidableEq

/-- Python `f"{variables}"` on the `variables` argument: `None` renders as
`"None"`, a dict as its repr (passed in already rendered). -/
def pyStr : Option String → String
  | none => "None"
  | some s => s

/-- `TarkovGraphQLClient.execute_query` (lines 79-93).  First the guard
`if not self._client: raise RuntimeError(...)` (lines 81-82), then
`await self.rate_limiter.acquire()` (line 84), then the `try` block whose
network step is abstracted by `net`; on exception `e` it logs
`f"GraphQL query failed: e. Query variables: variables"` (line 92) and
re-raises `e` (line 93). -/
def execute_query (s : TarkovGraphQLClient α) (query : String) (vars : Option String)
    (now : α) (net : Except String String) : ExecOutcome × TarkovGraphQLClient α :=
  if s.hasClient = false then
    (.raisedRuntimeError notInitializedMsg, s)
  else
    match (s.rate_limiter.acquire now).1 with
    | .admitted h =>
        let s' := { s with rate_limiter := { s.rate_limiter with requests := h } }
        match net with
        | .ok result => (.success result, s')
        | .error e =>
            (.raisedQueryError e
              ("GraphQL query failed: " ++ e ++ ". Query variables: " ++ pyStr vars), s')
    | .raisedValueError h =>
        (.raisedValueErrorFromLimiter,
         { s with rate_limiter := { s.rate_limiter with requests := h } })
    | .blockedForever h =>
        (.blockedInLimiter,
         { s with rate_limiter := { s.rate_limiter with requests := h } })

end TarkovGraphQLClient

/-- Substring test on character lists: `needle` occurs contiguously in the
second list. -/
def listContainsSub (needle : List Char) : List Char → Bool
  | [] => needle.isEmpty
  | c :: rest => needle.isPrefixOf (c :: rest) || listContainsSub needle rest

/-- Substring test on strings. -/
def strContainsSub (hay needle : String) : Bool :=
  listContainsSub needle.toList hay.toList

namespace RateLimiter

variable {α : Type} [LinearOrderedCommRing α]

lemma prune_mem_window (rl : RateLimiter α) (now : α) :
    ∀ x ∈ rl.prune now, now - rl.time_window < x := by
  intro x hx
  unfold prune at hx
  have h2 := (List.mem_filter.mp hx).2
  have h3 : now - x < rl.time_window := of_decide_eq_true h2
  linarith

lemma lt_foldl_min {c : α} :
    ∀ (l : List α) (a : α), c < a → (∀ x ∈ l, c < x) → c < l.foldl min a := by
  intro l
  induction l with
  | nil => intro a ha _; simpa using ha
  | cons x xs ih =>
      intro a ha hl
      have hx : c < x := hl x (List.mem_cons_self x xs)
      have hsub : ∀ y ∈ xs, c < y := fun y hy => hl y (List.mem_cons_of_mem x hy)
      simpa [List.foldl_cons] using ih (min a x) (lt_min ha hx) hsub

lemma acquire_of_lt (rl : RateLimiter α) (now : α)
    (hlt : ((rl.prune now).length : Int) < rl.max_requests) :
    rl.acquire now = (.admitted (rl.prune now ++ [now]),
      [.lockAcquired, .record now, .lockReleased]) := by
  unfold acquire
  rw [if_neg (not_le.mpr hlt)]

lemma acquire_of_nil (rl : RateLimiter α) (now : α)
    (hp : rl.prune now = []) (hm : rl.max_requests ≤ 0) :
    rl.acquire now = (.raisedValueError [],
      [.lockAcquired, .raiseValueError, .lockReleased]) := by
  unfold acquire
  rw [hp]
  rw [if_pos (by simpa using hm)]

lemma acquire_of_cons (rl : RateLimiter α) (now : α) (t : α) (ts : List α)
    (hp : rl.prune now = t :: ts) (hm : rl.max_requests ≤ ((t :: ts).length : Int)) :
    rl.acquire now = (.blockedForever (t :: ts),
      [.lockAcquired, .sleep (rl.time_window - (now - ts.foldl min t))]) := by
  have hmem := prune_mem_window rl now
  rw [hp] at hmem
  have ht : now - rl.time_window < t := hmem t (List.mem_cons_self t ts)
  have hts : ∀ x ∈ ts, now - rl.time_window < x :=
    fun x hx => hmem x (List.mem_cons_of_mem t hx)
  have hwait : 0 < rl.time_window - (now - ts.foldl min t) := by
    have := lt_foldl_min ts t ht hts
    linarith
  unfold acquire
  rw [hp]
  rw [if_pos (by simpa using hm)]
  dsimp only
  rw [if_pos hwait]

lemma acquire_admitted_elim (rl : RateLimiter α) (now : α) (h : List α)
    (hadm : (rl.acquire now).1 = .admitted h) :
    ((rl.prune now).length : Int) < rl.max_requests ∧ h = rl.prune now ++ [now] := by
  by_cases hge : ((rl.prune now).length : Int) ≥ rl.max_requests
  · exfalso
    rcases hp : rl.prune now with _ | ⟨t, ts⟩
    · rw [acquire_of_nil rl now hp (by rw [hp] at hge; simpa using hge)] at hadm
      simp at hadm
    · rw [acquire_of_cons rl now t ts hp (by rw [hp] at hge; exact hge)] at hadm
      simp at hadm
  · have heq := acquire_of_lt rl now (lt_of_not_ge hge)
    rw [heq] at hadm
    simp at hadm
    exact ⟨lt_of_not_ge hge, hadm.symm⟩

lemma runCalls_length_le (m : Int) (w : α) (calls : List α) :
    ∀ requests h, ((requests.length : Int) ≤ m) →
      runCalls m w requests calls = some h → ((h.length : Int) ≤ m) := by
  induction calls with
  | nil =>
      intro reqs h hlen hrun
      unfold runCalls at hrun
      cases hrun
      exact hlen
  | cons now rest ih =>
      intro reqs h hlen hrun
      unfold runCalls at hrun
      rcases hacq : (acquire ⟨m, w, reqs⟩ now).1 with h1 | h1 | h1
      · simp only [hacq] at hrun
        obtain ⟨hlt, heq⟩ := acquire_admitted_elim _ _ _ hacq
        refine ih h1 h ?_ hrun
        subst heq
        simp only [List.length_append, List.length_cons, List.length_nil]
        push_cast
        push_cast at hlt
        omega
      · simp only [hacq] at hrun
        cases hrun
      · simp only [hacq] at hrun
        cases hrun

end RateLimiter

section ClaimTheorems

variable {α : Type} [LinearOrderedCommRing α]

/-- C1 (code_bug evidence): for `RateLimiter(max_requests=2, window=0.1s)` and three
sequential `acquire()` calls — in millisecond units, window `100` and calls at
instants `0`, `10`, `20` — the first two calls are admitted immediately, but the
third finds the window full and never returns: it sleeps inside the held
`async with self._lock:` block and then recursively awaits `self.acquire()` on the
non-reentrant lock it already holds.  The claim's expected outcome (the third call
returns after roughly the remaining window) is refuted. -/
theorem C1_third_sequential_acquire_never_returns :
    RateLimiter.runCalls 2 (100:ℤ) [] [0, 10] = some [0, 10] ∧
    (RateLimiter.acquire ⟨2, (100:ℤ), [0, 10]⟩ 20).1 = .blockedForever [0, 10] ∧
    RateLimiter.runCalls 2 (100:ℤ) [] [0, 10, 20] = none := by decide

/-- C2 (code_bug evidence): in the same saturated scenario as C1, the trace of the
third `acquire()` call is lock-acquisition followed by the `asyncio.sleep` of the
remaining `80` time units, with no lock release before the sleep: the caller
suspends while holding the mutual-exclusion lock, contrary to the claim. -/
theorem C2_sleep_happens_while_lock_held :
    (RateLimiter.acquire ⟨2, (100:ℤ), [0, 10]⟩ 20).2 = [Ev.lockAcquired, Ev.sleep 80] ∧
    sleepsWhileLocked 0 (RateLimiter.acquire ⟨2, (100:ℤ), [0, 10]⟩ 20).2 = true := by decide

/-- C3 (code_bug evidence): opening the gateway (`__aenter__` / `_initialize`) sets
`self._client` but never assigns `self._session`; closing it (`__aexit__` /
`_cleanup`) therefore finds `self._session` falsy and awaits no release at all —
`session.close()` is called zero times — and the client holding the transport
remains set after exit.  The claimed unconditional release on scope exit does not
happen. -/
theorem C3_scope_exit_releases_no_session :
    (TarkovGraphQLClient.aenter (TarkovGraphQLClient.init (α := ℤ))).hasClient = true ∧
    (TarkovGraphQLClient.aenter (TarkovGraphQLClient.init (α := ℤ))).hasSession = false ∧
    (TarkovGraphQLClient.aexit (TarkovGraphQLClient.aenter
        (TarkovGraphQLClient.init (α := ℤ)))).sessionCloseCalls = 0 ∧
    (TarkovGraphQLClient.aexit (TarkovGraphQLClient.aenter
        (TarkovGraphQLClient.init (α := ℤ)))).hasClient = true := by decide

/-- C4 (counterexample): a query executed after `open()` followed by `close()`
succeeds instead of raising the `NotInitialized` failure, because `_cleanup`
never clears `self._client`.  This refutes the claim that `execute_query`
raises `NotInitialized` whenever the gateway is not in the `Open` state. -/
theorem C4_counterexample_query_after_close_succeeds :
    (TarkovGraphQLClient.execute_query
        (TarkovGraphQLClient.aexit (TarkovGraphQLClient.aenter (TarkovGraphQLClient.init (α := ℤ))))
        "q" none 0 (Except.ok "r")).1 = .success "r" := by decide

/-- C4 (amended): `execute_query` raises the `RuntimeError` guard exactly when
`self._client` is unset, which is the case before `open()` but not after
`close()`: `_cleanup` leaves `self._client` (and hence the gateway's
queryability) untouched. -/
theorem C4_runtime_error_iff_client_absent (s : TarkovGraphQLClient α) (q : String)
    (v : Option String) (now : α) (net : Except String String) (msg : String) :
    ((TarkovGraphQLClient.execute_query s q v now net).1 = .raisedRuntimeError msg ↔
      (s.hasClient = false ∧ msg = TarkovGraphQLClient.notInitializedMsg)) ∧
    (TarkovGraphQLClient.cleanup s).hasClient = s.hasClient := by
  constructor
  · cases hc : s.hasClient with
    | false =>
        unfold TarkovGraphQLClient.execute_query
        rw [hc, if_pos rfl]
        simp [eq_comm]
    | true =>
        unfold TarkovGraphQLClient.execute_query
        rw [hc]
        rw [if_neg (by simp)]
        constructor
        · intro hcontra
          exfalso
          rcases hacq : (s.rate_limiter.acquire now).1 with h1 | h1 | h1 <;>
            rcases net with r | e <;>
            simp [hacq] at hcontra
        · rintro ⟨hfalse, -⟩
          cases hfalse
  · unfold TarkovGraphQLClient.cleanup
    split <;> rfl

/-- C5 (counterexample): with `max_requests = 0` (or any non-positive value) and
an empty history, `acquire()` does not block forever as claimed: the pruned
history is empty yet counts as full, and `min(self.requests)` at line 33 raises
`ValueError` on the empty list, so the call fails. -/
theorem C5_counterexample_nonpositive_max_raises :
    (RateLimiter.acquire ⟨(0:Int), (60:ℤ), []⟩ 0).1 = .raisedValueError [] ∧
    (RateLimiter.acquire ⟨(-1:Int), (60:ℤ), []⟩ 0).1 = .raisedValueError [] := by decide

/-- C5 (amended): when `max_requests > 0`, `acquire()` never raises; when
`max_requests ≤ 0` — under which no admission is ever recorded, so the history
is empty — every call raises `ValueError` (from `min` of an empty sequence)
instead of blocking forever. -/
theorem C5_acquire_raises_exactly_when_max_nonpositive (rl : RateLimiter α) (now : α) :
    (0 < rl.max_requests → ∀ h, (rl.acquire now).1 ≠ .raisedValueError h) ∧
    (rl.max_requests ≤ 0 →
      (RateLimiter.acquire ⟨rl.max_requests, rl.time_window, []⟩ now).1 = .raisedValueError []) := by
  constructor
  · intro hm h hcontra
    by_cases hge : ((rl.prune now).length : Int) ≥ rl.max_requests
    · rcases hp : rl.prune now with _ | ⟨t, ts⟩
      · rw [hp] at hge
        simp at hge
        omega
      · rw [RateLimiter.acquire_of_cons rl now t ts hp (by rw [hp] at hge; exact hge)] at hcontra
        simp at hcontra
    · rw [RateLimiter.acquire_of_lt rl now (lt_of_not_ge hge)] at hcontra
      simp at hcontra
  · intro hm
    have hpair := RateLimiter.acquire_of_nil
      (⟨rl.max_requests, rl.time_window, []⟩ : RateLimiter α) now rfl hm
    rw [hpair]

/-- C5 witness: at `max_requests = 1` the outcome is never `ValueError`; at
`max_requests = 0` the call raises `ValueError`. -/
theorem C5_acquire_raises_exactly_when_max_nonpositive_witness :
    ((RateLimiter.acquire ⟨(1:Int), (60:ℤ), []⟩ 0).1 ≠ .raisedValueError [0]) ∧
    (RateLimiter.acquire ⟨(0:Int), (60:ℤ), []⟩ 0).1 = .raisedValueError [] :=
  ⟨(C5_acquire_raises_exactly_when_max_nonpositive ⟨1, (60:ℤ), []⟩ 0).1 (by decide) [0],
   (C5_acquire_raises_exactly_when_max_nonpositive ⟨0, (60:ℤ), []⟩ 0).2 (by decide)⟩

/-- C6: after any sequence of sequential `acquire()` calls on one limiter with
`max_requests = N > 0` and `window = W > 0`, every sub-interval of length `W`
contains at most `N` of the timestamps recorded in `history` — indeed after any
admission the pruned history as a whole has at most `N` entries. -/
theorem C6_sliding_window_bound (N : Int) (W : α) (calls finalHistory : List α)
    (hN : 0 < N) (hW : 0 < W)
    (hrun : RateLimiter.runCalls N W [] calls = some finalHistory) (a : α) :
    ((finalHistory.filter fun t => decide (a ≤ t ∧ t ≤ a + W)).length : Int) ≤ N := by
  have hlen : ((finalHistory.length : Int) ≤ N) :=
    RateLimiter.runCalls_length_le N W calls [] finalHistory (by simpa using hN.le) hrun
  have hf : (finalHistory.filter fun t => decide (a ≤ t ∧ t ≤ a + W)).length
      ≤ finalHistory.length := List.length_filter_le _ _
  calc ((finalHistory.filter fun t => decide (a ≤ t ∧ t ≤ a + W)).length : Int)
      ≤ (finalHistory.length : Int) := by exact_mod_cast hf
    _ ≤ N := hlen

/-- C6 witness: limiter `N = 2`, `W = 100`, calls at `0`, `50`, `500`; the run
succeeds with final history `[500]`, and the sub-interval `[0, 100]` contains at
most two recorded timestamps. -/
theorem C6_sliding_window_bound_witness :
    RateLimiter.runCalls 2 (100:ℤ) [] [0, 50, 500] = some [500] ∧
    ((([500] : List ℤ).filter fun t => decide ((0:ℤ) ≤ t ∧ t ≤ 0 + 100)).length : Int) ≤ 2 :=
  ⟨by decide, C6_sliding_window_bound 2 100 [0, 50, 500] [500] (by decide) (by decide) (by decide) 0⟩

/-- C7: when the pruned history holds fewer than `max_requests` timestamps at the
moment of the call, `acquire()` records `now` (appended after the pruned entries)
and returns immediately; its trace contains no sleep. -/
theorem C7_under_budget_admits_without_sleep (rl : RateLimiter α) (now : α)
    (hbudget : ((rl.prune now).length : Int) < rl.max_requests) :
    (rl.acquire now).1 = .admitted (rl.prune now ++ [now]) ∧
    hasSleep (rl.acquire now).2 = false := by
  rw [RateLimiter.acquire_of_lt rl now hbudget]
  exact ⟨rfl, rfl⟩

/-- C7 witness: a fresh limiter with `max_requests = 1` admits the call at
instant `0` without sleeping. -/
theorem C7_under_budget_admits_without_sleep_witness :
    (RateLimiter.acquire ⟨(1:Int), (60:ℤ), []⟩ 0).1 =
      .admitted ((⟨(1:Int), (60:ℤ), []⟩ : RateLimiter ℤ).prune 0 ++ [0]) ∧
    hasSleep (RateLimiter.acquire ⟨(1:Int), (60:ℤ), []⟩ 0).2 = false :=
  C7_under_budget_admits_without_sleep ⟨1, (60:ℤ), []⟩ 0 (by decide)

/-- C8 (counterexample): with the query text `"query GetMaps"` and a transport
failure `"Network error"`, the diagnostic message logged by `execute_query` is
`"GraphQL query failed: Network error. Query variables: None"`, which contains
the parameters but not the attempted query text — refuting the claim that the
diagnostic context contains both. -/
theorem C8_counterexample_log_lacks_query_text :
    (TarkovGraphQLClient.execute_query
        (TarkovGraphQLClient.aenter (TarkovGraphQLClient.init (α := ℤ)))
        "query GetMaps" none 0 (Except.error "Network error")).1 =
      .raisedQueryError "Network error"
        "GraphQL query failed: Network error. Query variables: None" ∧
    strContainsSub "GraphQL query failed: Network error. Query variables: None"
      "query GetMaps" = false := by decide

/-- C8 (amended): on any error in the network step of an admitted call,
`execute_query` logs a diagnostic message containing the error and the
rendering of the parameters (but not the query text) and re-raises the same
error; it never returns a (possibly empty) success result on that path, and the
admission stays recorded. -/
theorem C8_error_reraised_with_variables_logged (s : TarkovGraphQLClient α)
    (q : String) (v : Option String) (now : α) (e : String) (h : List α)
    (hc : s.hasClient = true)
    (hadm : (s.rate_limiter.acquire now).1 = .admitted h) :
    TarkovGraphQLClient.execute_query s q v now (Except.error e) =
      (.raisedQueryError e ("GraphQL query failed: " ++ e ++ ". Query variables: "
          ++ TarkovGraphQLClient.pyStr v),
       { s with rate_limiter := { s.rate_limiter with requests := h } }) := by
  unfold TarkovGraphQLClient.execute_query
  rw [hc]
  rw [if_neg (by simp)]
  simp only [hadm]

/-- C8 witness: concrete admitted call with an injected failure `"boom"`. -/
theorem C8_error_reraised_with_variables_logged_witness :
    TarkovGraphQLClient.execute_query
        (TarkovGraphQLClient.aenter (TarkovGraphQLClient.init (α := ℤ)))
        "query SearchItems" none 0 (Except.error "boom") =
      (.raisedQueryError "boom" ("GraphQL query failed: " ++ "boom" ++ ". Query variables: "
          ++ TarkovGraphQLClient.pyStr none),
       { TarkovGraphQLClient.aenter (TarkovGraphQLClient.init (α := ℤ)) with
          rate_limiter := { (TarkovGraphQLClient.aenter
              (TarkovGraphQLClient.init (α := ℤ))).rate_limiter with requests := [0] } }) :=
  C8_error_reraised_with_variables_logged _ "query SearchItems" none 0 "boom" [0]
    rfl (by decide)

/-- C9 (code_bug evidence): on an open gateway whose limiter (`max_requests = 1`,
window `100`) already holds the admission `[0]`, a query at instant `50` blocks
forever inside `acquire` and appends nothing to the history — refuting the claim
that every call on an open gateway appends exactly one admission timestamp.  The
non-refund half of the claim does hold: an admitted call whose network step
fails keeps its recorded slot (third conjunct). -/
theorem C9_saturated_call_never_appends :
    (TarkovGraphQLClient.execute_query (⟨⟨1, (100:ℤ), [0]⟩, true, false, 0⟩ : TarkovGraphQLClient ℤ)
        "q" none 50 (Except.ok "r")).1 = .blockedInLimiter ∧
    (TarkovGraphQLClient.execute_query (⟨⟨1, (100:ℤ), [0]⟩, true, false, 0⟩ : TarkovGraphQLClient ℤ)
        "q" none 50 (Except.ok "r")).2.rate_limiter.requests = [0] ∧
    (TarkovGraphQLClient.execute_query (⟨⟨60, (60:ℤ), []⟩, true, false, 0⟩ : TarkovGraphQLClient ℤ)
        "q" none 0 (Except.error "boom")).2.rate_limiter.requests = [0] := by decide

/-- C10: when `self._client` is unset, `execute_query` raises the
`RuntimeError` guard immediately and returns the state unchanged — in
particular the limiter's history is untouched, since the guard at lines 81-82
precedes `await self.rate_limiter.acquire()` at line 84. -/
theorem C10_not_initialized_raises_before_limiter (s : TarkovGraphQLClient α)
    (q : String) (v : Option String) (now : α) (net : Except String String)
    (hc : s.hasClient = false) :
    TarkovGraphQLClient.execute_query s q v now net =
      (.raisedRuntimeError TarkovGraphQLClient.notInitializedMsg, s) ∧
    (TarkovGraphQLClient.execute_query s q v now net).2.rate_limiter.requests =
      s.rate_limiter.requests := by
  have hmain : TarkovGraphQLClient.execute_query s q v now net =
      (.raisedRuntimeError TarkovGraphQLClient.notInitializedMsg, s) := by
    unfold TarkovGraphQLClient.execute_query
    rw [hc, if_pos rfl]
  exact ⟨hmain, by rw [hmain]⟩

/-- C10 witness: a freshly constructed (never opened) gateway. -/
theorem C10_not_initialized_raises_before_limiter_witness :
    TarkovGraphQLClient.execute_query (TarkovGraphQLClient.init (α := ℤ))
        "q" none 0 (Except.ok "r") =
      (.raisedRuntimeError TarkovGraphQLClient.notInitializedMsg,
       TarkovGraphQLClient.init (α := ℤ)) ∧
    (TarkovGraphQLClient.execute_query (TarkovGraphQLClient.init (α := ℤ))
        "q" none 0 (Except.ok "r")).2.rate_limiter.requests =
      (TarkovGraphQLClient.init (α := ℤ)).rate_limiter.requests :=
  C10_not_initialized_raises_before_limiter (TarkovGraphQLClient.init (α := ℤ))
    "q" none 0 (Except.ok "r") rfl

end ClaimTheorems

end TarkovMCP
